import Mathlib

set_option maxRecDepth 100000

/-!
Verification of the mdq selector-query engine's specification against its
source. The Rust source under verification provides the diagnostics module
(`src/query/error.rs`), the REPL layer (`src/repl/*.rs`) and the crate
root (`src/lib.rs`). The query grammar, the matching engine and the
markdown document model are declared and exercised by that code but their
definitions are not part of the provided sources; where a claim depends on
them they are modelled from the specification, and such definitions carry
a doc comment beginning `Modelled from the spec:`.

Machine strings are modelled as Lean `String`s; all string operations used
by the embedding are implemented over the underlying character lists so
that every definition evaluates inside the kernel.
-/

/-! ## Character-list string utilities

These mirror the Rust standard-library string operations used by the
sources (`trim`, `starts_with`, `strip_prefix`, `split_whitespace`,
`contains`, `is_empty`, `to_lowercase`, `join`). They are implemented over
`String.data` so that they reduce definitionally. -/

/-- Boolean test that `p` is a prefix of `l` (Rust `str::starts_with`). -/
def prefixCheck : List Char → List Char → Bool
  | [], _ => true
  | _ :: _, [] => false
  | a :: as, b :: bs => a == b && prefixCheck as bs

/-- Boolean test that `n` occurs contiguously inside `h` (Rust `str::contains`). -/
def infixCheck : List Char → List Char → Bool
  | n, [] => prefixCheck n []
  | n, c :: t => prefixCheck n (c :: t) || infixCheck n t

/-- Substring containment on strings: `containsStr s sub` holds when `sub`
occurs contiguously in `s` (Rust `str::contains`). -/
def containsStr (s sub : String) : Bool := infixCheck sub.data s.data

/-- Rust `str::starts_with` on strings. -/
def startsWithStr (s p : String) : Bool := prefixCheck p.data s.data

/-- Rust `str::is_empty` on strings. -/
def strIsEmpty (s : String) : Bool := s.data.isEmpty

/-- Drops the first `n` characters of a string. -/
def strDrop (s : String) (n : Nat) : String := ⟨s.data.drop n⟩

/-- Rust `str::trim`: removes leading and trailing whitespace. -/
def strTrim (s : String) : String :=
  ⟨((s.data.dropWhile Char.isWhitespace).reverse.dropWhile Char.isWhitespace).reverse⟩

/-- Lower-cases every character (Rust `str::to_lowercase`, ASCII-faithful). -/
def strToLower (s : String) : String := ⟨s.data.map Char.toLower⟩

/-- Splits a character list at every occurrence of `sep`; keeps empty segments. -/
def splitCharsOn (sep : Char) : List Char → List (List Char)
  | [] => [[]]
  | c :: rest =>
    let r := splitCharsOn sep rest
    if c == sep then [] :: r
    else
      match r with
      | [] => [[c]]
      | seg :: segs => (c :: seg) :: segs

/-- Splits a string on a separator character, keeping empty segments
(Rust `str::split`). -/
def strSplitOn (s : String) (sep : Char) : List String :=
  (splitCharsOn sep s.data).map (fun cs => ⟨cs⟩)

/-- Groups maximal whitespace-free runs of a character list. -/
def splitWsChars : List Char → List (List Char)
  | [] => []
  | c :: rest =>
    let r := splitWsChars rest
    if c.isWhitespace then [] :: r
    else
      match r with
      | [] => [[c]]
      | seg :: segs => (c :: seg) :: segs

/-- Rust `str::split_whitespace`: splits on whitespace runs, discarding
empty segments. -/
def splitWhitespaceStr (s : String) : List String :=
  ((splitWsChars s.data).filter (fun cs => !cs.isEmpty)).map (fun cs => ⟨cs⟩)

/-- Joins strings with a separator (Rust `[&str]::join`). -/
def joinSep (sep : String) : List String → String
  | [] => ""
  | [s] => s
  | s :: rest => s ++ sep ++ joinSep sep rest

/-- Decimal rendering of a natural number, via `Nat.repr`. -/
def natStr (n : Nat) : String := toString n

/-! ## Grammar rule identifiers and their descriptions

`Rule` is reconstructed from the exhaustive, wildcard-free `match` in
`rule_to_string` (src/query/error.rs); that match compiles in Rust only if
it lists every variant of the grammar's `Rule` enum, so the variants below
are exactly the grammar's rule identifiers. -/

/-- Rule identifiers of the selector grammar (src/query/error.rs lines 5-47). -/
inductive Rule where
  | EOI
  | WHITESPACE
  | top
  | selector_chain
  | selector
  | selector_delim
  | explicit_space
  | select_section
  | section_start
  | select_list_item
  | list_start
  | list_ordered
  | list_task_options
  | task_checked
  | task_unchecked
  | task_either
  | task_end
  | select_link
  | link_start
  | image_start
  | select_block_quote
  | select_block_quote_start
  | select_code_block
  | code_block_start
  | select_front_matter
  | front_matter_start
  | select_html
  | html_start
  | select_paragraph
  | select_paragraph_start
  | select_table
  | table_start
  | string
  | string_for_unit_tests__do_not_use_angle
  | string_for_unit_tests__do_not_use_pipe
  | unquoted_string
  | regex
  | regex_char
  | regex_escaped_slash
  | regex_normal_char
  | regex_replacement_segment
  | quoted_string
  | quoted_char
  | asterisk
  | anchor_start
  | anchor_end
  | quoted_plain_chars
  | escaped_char
  | unicode_seq
  deriving DecidableEq, Repr

/-- Converts a pest Rule to a human-readable string
(src/query/error.rs `rule_to_string`). -/
def rule_to_string (rule : Rule) : String :=
  match rule with
  | .EOI => "end of input"
  | .WHITESPACE => "whitespace"
  | .top => "valid query"
  | .selector_chain => "one or more selectors"
  | .selector => "selector"
  | .selector_delim | .explicit_space => "space"
  | .select_section | .section_start => "#"
  | .select_list_item | .list_start => "- or 1."
  | .list_ordered => "-"
  | .list_task_options => "[ ], [x], or [?]"
  | .task_checked => "[x]"
  | .task_unchecked => "[ ]"
  | .task_either => "[?]"
  | .task_end => "]"
  | .select_link | .link_start => "[ or !["
  | .image_start => "!["
  | .select_block_quote | .select_block_quote_start => ">"
  | .select_code_block | .code_block_start => "```"
  | .select_front_matter | .front_matter_start => "+++"
  | .select_html | .html_start => "</>"
  | .select_paragraph | .select_paragraph_start => "P:"
  | .select_table | .table_start => ":-:"
  | .string | .string_for_unit_tests__do_not_use_angle
  | .string_for_unit_tests__do_not_use_pipe => "string"
  | .unquoted_string => "unquoted string"
  | .regex => "regex"
  | .regex_char => "regex character"
  | .regex_escaped_slash => "/"
  | .regex_normal_char => "regex character"
  | .regex_replacement_segment => "regex replacement"
  | .quoted_string => "quoted string"
  | .quoted_char => "character in quoted string"
  | .asterisk => "*"
  | .anchor_start => "^"
  | .anchor_end => "$"
  | .quoted_plain_chars => "character in quoted string"
  | .escaped_char => "escape sequence"
  | .unicode_seq => "unicode sequence"

/-! ## Grammar-error model and rendering -/

/-- Variant of a pest error: a parsing error carrying the sets of rules
that would or would not have been accepted at the failure offset, or a
custom error carrying a message (pest `ErrorVariant`). -/
inductive ErrorVariant where
  | ParsingError (positives : List Rule) (negatives : List Rule)
  | CustomError (message : String)
  deriving DecidableEq, Repr

/-- Model of `crate::query::Error`: the wrapped pest error's variant plus
the position data pest stores for rendering (line and column of the
failure, and the text of the offending source line). -/
structure QueryError where
  variant : ErrorVariant
  line : Nat
  col : Nat
  sourceLine : String
  deriving DecidableEq, Repr

/-- Modelled from the spec: the expected-rules part of pest's message for a
grammar error, using the renamed rule descriptions; the Display impl of
`crate::query::Error` is not under the provided sources. -/
def variantMessage : ErrorVariant → String
  | .ParsingError [] _ => "unknown parsing error"
  | .ParsingError [p] _ => "expected " ++ rule_to_string p
  | .ParsingError ps _ => "expected " ++ joinSep ", " (ps.map rule_to_string)
  | .CustomError m => m

/-- Produces a string of `n` spaces, used to indent the caret marker. -/
def spacesStr : Nat → String
  | 0 => ""
  | n + 1 => " " ++ spacesStr n

/-- Modelled from the spec: the baseline caret-diagram rendering (spec
section 4.3 and the doc example in src/query/error.rs lines 115-121);
the Display impl producing it is not under the provided sources. -/
def renderBaseline (line col : Nat) (sourceLine msg : String) : String :=
  " --> " ++ natStr line ++ ":" ++ natStr col
    ++ "\n  |\n" ++ natStr line ++ " | " ++ sourceLine
    ++ "\n  | " ++ spacesStr (col - 1) ++ "^---\n  |\n  = " ++ msg

/-- Modelled from the spec: `format!("{e}")` for a `crate::query::Error`,
that is the caret diagram positioned at the error with pest's message. -/
def queryErrorDisplay (e : QueryError) : String :=
  renderBaseline e.line e.col e.sourceLine (variantMessage e.variant)

/-- Like a pest Span, but without a reference to the underlying string
(src/query/error.rs `DetachedSpan`; the Rust fields are `start` and
`end`, the latter renamed `stop` because `end` is a Lean keyword). -/
structure DetachedSpan where
  start : Nat
  stop : Nat
  deriving DecidableEq, Repr

/-- Modelled from the spec: success of `pest::Span::new(query_text, start, end)`,
which checks that the offsets are an in-range, ordered pair for the text;
offsets are modelled as character offsets. -/
def spanResolves (query_text : String) (span : DetachedSpan) : Bool :=
  span.start ≤ span.stop && span.stop ≤ query_text.data.length

/-- Number of newline characters strictly before offset `off`. -/
def newlinesBefore : List Char → Nat → Nat
  | _, 0 => 0
  | [], _ + 1 => 0
  | c :: rest, n + 1 => (if c == '\n' then 1 else 0) + newlinesBefore rest n

/-- Number of characters between the last newline before `off` and `off`. -/
def colAt : List Char → Nat → Nat
  | _, 0 => 0
  | [], _ + 1 => 0
  | c :: rest, n + 1 => if c == '\n' then colAt rest n else colAt rest n + 1

/-- Wait-free helper: the text of the 1-based line number `ln` of `s`. -/
def lineText (s : String) (ln : Nat) : String :=
  (strSplitOn s '\n').getD (ln - 1) ""

/-- Modelled from the spec: `crate::query::Error::new_from_span(span, message)`,
which builds a custom pest error positioned at the span within the query
text; not under the provided sources. -/
def new_from_span (query_text : String) (span : DetachedSpan) (message : String) : QueryError :=
  let ln := newlinesBefore query_text.data span.start + 1
  { variant := .CustomError message
    line := ln
    col := colAt query_text.data span.start + 1
    sourceLine := lineText query_text ln }

/-- Inner representation of a query parse error: a grammar-level pest
error, or a free-form semantic error with a detached span and message
(src/query/error.rs `InnerParseError`). -/
inductive InnerParseError where
  | Pest (e : QueryError)
  | Other (span : DetachedSpan) (message : String)
  deriving DecidableEq, Repr

/-- An error representing an invalid selector query
(src/query/error.rs `ParseError`). -/
structure ParseError where
  inner : InnerParseError
  deriving DecidableEq, Repr

/-- Display for `InnerParseError`: the pest rendering for grammar errors,
the raw message for semantic errors (src/query/error.rs lines 90-97). -/
def InnerParseError.display : InnerParseError → String
  | .Pest e => queryErrorDisplay e
  | .Other _ message => message

/-- Display for `ParseError`, forwarding to the inner error
(src/query/error.rs lines 69-73). -/
def ParseError.display (pe : ParseError) : String := pe.inner.display

/-- Extracts the failed rule name from a pest error: the description of
the first positive rule for a parsing error, nothing for a custom error
(src/query/error.rs `extract_failed_rule_from_pest_error`). -/
def extract_failed_rule_from_pest_error (error : QueryError) : Option String :=
  match error.variant with
  | .ParsingError positives _ => positives.head?.map rule_to_string
  | .CustomError _ => none

/-- The fixed suggestions catalog appended by `to_string_with_suggestions`
when no expected rule can be extracted (src/query/error.rs lines 158-168),
as the concatenation of the exact strings pushed by the source. -/
def suggestionsCatalog : String :=
  "\n\nSuggestions:"
    ++ "\n  • Use # for sections (e.g., \x27# My Section\x27)"
    ++ "\n  • Use - for list items (e.g., \x27- List item\x27)"
    ++ "\n  • Use [] for links (e.g., \x27[text](url)\x27)"
    ++ "\n  • Use > for blockquotes (e.g., \x27> Quote text\x27)"
    ++ "\n  • Use ``` for code blocks (e.g., \x27```rust code\x27)"
    ++ "\n  • Use +++ for front matter (e.g., \x27+++ toml\x27)"
    ++ "\n  • Use </> for HTML (e.g., \x27</> <div>\x27)"
    ++ "\n  • Use P: for paragraphs (e.g., \x27P: paragraph text\x27)"
    ++ "\n  • Use :-: for tables (e.g., \x27:-: column | row\x27)"
    ++ "\n  • Use | to separate multiple selectors (e.g., \x27# Section | - List item\x27)"

/-- Gets a string suitable for displaying to a user, given the original
query string (src/query/error.rs `ParseError::to_string`, lines 123-134). -/
def ParseError.to_string (pe : ParseError) (query_text : String) : String :=
  match pe.inner with
  | .Pest e => queryErrorDisplay e
  | .Other span message =>
    if spanResolves query_text span then
      queryErrorDisplay (new_from_span query_text span message)
    else
      message

/-- Gets a string suitable for displaying to a user, including suggestions
for the query (src/query/error.rs `ParseError::to_string_with_suggestions`,
lines 149-187). -/
def ParseError.to_string_with_suggestions (pe : ParseError) (query_text : String) : String :=
  match pe.inner with
  | .Pest e =>
    match extract_failed_rule_from_pest_error e with
    | some rule_name => queryErrorDisplay e ++ "\n\nExpected: `" ++ rule_name ++ "`"
    | none => queryErrorDisplay e ++ suggestionsCatalog
  | .Other span message =>
    if spanResolves query_text span then
      let pest_err := new_from_span query_text span message
      match extract_failed_rule_from_pest_error pest_err with
      | some rule_name => queryErrorDisplay pest_err ++ "\n\nExpected: `" ++ rule_name ++ "`"
      | none => queryErrorDisplay pest_err ++ "\n\n[No rule extracted]"
    else
      message

/-- The ten catalog lines that the specification requires in the
enhanced-error fallback output. -/
def catalogClaimLines : List String :=
  ["Use # for sections", "Use - for list items", "Use [] for links",
   "Use > for blockquotes", "Use ``` for code blocks", "Use +++ for front matter",
   "Use </> for HTML", "Use P: for paragraphs", "Use :-: for tables",
   "Use | to separate multiple selectors"]

/-! ### Helper lemmas about substring containment -/

theorem infixCheck_append_left (s n h : List Char)
    (hh : infixCheck n h = true) : infixCheck n (s ++ h) = true := by
  induction s with
  | nil => simpa using hh
  | cons a as ih =>
    simp only [List.cons_append, infixCheck, Bool.or_eq_true]
    exact Or.inr ih

theorem containsStr_append_left (s t sub : String)
    (h : containsStr t sub = true) : containsStr (s ++ t) sub = true := by
  unfold containsStr at *
  rw [String.data_append]
  exact infixCheck_append_left _ _ _ h

/-! ## Selector model and query parser

The grammar, parse-tree walk and `Selector` type live in modules that are
not among the provided sources; they are modelled from the specification
(sections 3 and 4.1). The model covers the full token catalogue with
unquoted-text and `*` matchers; quoted-string and regex matchers are
outside the model (no claim depends on them). -/

/-- Modelled from the spec: a text matcher attached to a selector; the
model carries the literal case-insensitive-substring form (spec section 3,
`TextMatcher`). -/
inductive TextMatcher where
  | Literal (s : String)
  deriving DecidableEq, Repr

/-- Modelled from the spec: the task-state qualifier of a list-item
selector (`[x]`, `[ ]`, `[?]`). -/
inductive TaskState where
  | checked
  | unchecked
  | either
  deriving DecidableEq, Repr

/-- Modelled from the spec: one selector specification of a chain (spec
section 3, `SelectorSpec`); each variant optionally carries a matcher. -/
inductive SelectorSpec where
  | Section (m : Option TextMatcher)
  | ListItem (ordered : Bool) (task : Option TaskState) (m : Option TextMatcher)
  | Link (image : Bool) (m : Option TextMatcher)
  | BlockQuote (m : Option TextMatcher)
  | CodeBlock (m : Option TextMatcher)
  | FrontMatter (m : Option TextMatcher)
  | Html (m : Option TextMatcher)
  | Paragraph (m : Option TextMatcher)
  | Table (m : Option TextMatcher)
  deriving DecidableEq, Repr

/-- Modelled from the spec: the text following a selector token, as an
optional matcher: absent or `*` means unconditional, otherwise a literal
(spec section 4.1). -/
def parseMatcher (rest : String) : Option TextMatcher :=
  let t := strTrim rest
  if strIsEmpty t then none
  else if t = "*" then none
  else some (.Literal t)

/-- Modelled from the spec: the grammar error produced at a segment where
no production matches; the top-level failure maps to the `top` rule
("valid query"), per the doc example in src/query/error.rs lines 115-121. -/
def grammarFailure (seg : String) : ParseError :=
  ⟨.Pest ⟨.ParsingError [Rule.top] [], 1, 1, seg⟩⟩

/-- Modelled from the spec: the rest of a list-item selector after its
start token: an optional task-state qualifier, then matcher text
(spec section 4.1). -/
def parseListRest (ordered : Bool) (rest : String) : SelectorSpec :=
  let t := strTrim rest
  if startsWithStr t "[x]" then .ListItem ordered (some .checked) (parseMatcher (strDrop t 3))
  else if startsWithStr t "[ ]" then .ListItem ordered (some .unchecked) (parseMatcher (strDrop t 3))
  else if startsWithStr t "[?]" then .ListItem ordered (some .either) (parseMatcher (strDrop t 3))
  else .ListItem ordered none (parseMatcher t)

/-- Modelled from the spec: parses one selector of a chain from its start
token (spec section 4.1 token catalogue); an unrecognized start is a
grammar failure. -/
def parseSelector (seg0 : String) : Except ParseError SelectorSpec :=
  let seg := strTrim seg0
  if startsWithStr seg "![" then .ok (.Link true (parseMatcher (strDrop seg 2)))
  else if startsWithStr seg "[" then .ok (.Link false (parseMatcher (strDrop seg 1)))
  else if startsWithStr seg "#" then .ok (.Section (parseMatcher (strDrop seg 1)))
  else if startsWithStr seg "-" then .ok (parseListRest false (strDrop seg 1))
  else if (seg.data.takeWhile Char.isDigit) ≠ [] &&
      (seg.data.drop (seg.data.takeWhile Char.isDigit).length).head? = some '.' then
    .ok (parseListRest true ⟨seg.data.drop ((seg.data.takeWhile Char.isDigit).length + 1)⟩)
  else if startsWithStr seg "```" then .ok (.CodeBlock (parseMatcher (strDrop seg 3)))
  else if startsWithStr seg "+++" then .ok (.FrontMatter (parseMatcher (strDrop seg 3)))
  else if startsWithStr seg "</>" then .ok (.Html (parseMatcher (strDrop seg 3)))
  else if startsWithStr seg "P:" then .ok (.Paragraph (parseMatcher (strDrop seg 2)))
  else if startsWithStr seg ":-:" then .ok (.Table (parseMatcher (strDrop seg 3)))
  else if startsWithStr seg ">" then .ok (.BlockQuote (parseMatcher (strDrop seg 1)))
  else .error (grammarFailure seg)

/-- Modelled from the spec: `Selector::try_parse` / `parse(query)`, which
splits the query at `|` chain delimiters and parses each segment as one
selector, failing wholesale on the first bad segment (spec section 4.1). -/
def Selector.try_parse (query : String) : Except ParseError (List SelectorSpec) :=
  (strSplitOn query '|').mapM parseSelector

/-! ## Document model and matching engine

Modelled from the spec (sections 2, 3 and 4.2); the markdown element tree
and `find_nodes` live in modules not among the provided sources. -/

/-- Modelled from the spec: a node of the markdown document tree (spec
section 2 item 1). The Rust list-container variant is named `List`; here
it is `ListBlock` to avoid clashing with Lean's `List`. -/
inductive MdElem where
  | Section (title : String) (children : List MdElem)
  | Paragraph (text : String)
  | ListBlock (ordered : Bool) (items : List MdElem)
  | ListItem (ordered : Bool) (checked : Option Bool) (text : String) (children : List MdElem)
  | Link (image : Bool) (text : String) (url : String)
  | BlockQuote (children : List MdElem)
  | CodeBlock (language : String) (code : String)
  | FrontMatter (text : String)
  | Html (text : String)
  | Table (text : String)
  deriving Repr

/-- Modelled from the spec: a parsed markdown document, exposing its
top-level root elements (`MdDoc` with field `roots`). -/
structure MdDoc where
  roots : List MdElem
  deriving Repr

mutual

/-- Structural equality on document nodes, modelling dedup by node
identity (spec section 4.2 step 4). -/
def mdBeq : MdElem → MdElem → Bool
  | .Section t1 c1, .Section t2 c2 => t1 == t2 && mdBeqList c1 c2
  | .Paragraph t1, .Paragraph t2 => t1 == t2
  | .ListBlock o1 i1, .ListBlock o2 i2 => o1 == o2 && mdBeqList i1 i2
  | .ListItem o1 k1 t1 c1, .ListItem o2 k2 t2 c2 =>
      o1 == o2 && k1 == k2 && t1 == t2 && mdBeqList c1 c2
  | .Link i1 t1 u1, .Link i2 t2 u2 => i1 == i2 && t1 == t2 && u1 == u2
  | .BlockQuote c1, .BlockQuote c2 => mdBeqList c1 c2
  | .CodeBlock l1 d1, .CodeBlock l2 d2 => l1 == l2 && d1 == d2
  | .FrontMatter t1, .FrontMatter t2 => t1 == t2
  | .Html t1, .Html t2 => t1 == t2
  | .Table t1, .Table t2 => t1 == t2
  | _, _ => false

/-- Pointwise `mdBeq` on node lists. -/
def mdBeqList : List MdElem → List MdElem → Bool
  | [], [] => true
  | a :: as, b :: bs => mdBeq a b && mdBeqList as bs
  | _, _ => false

end

mutual

/-- Modelled from the spec: the literal text content of a node against
which a matcher is evaluated (spec section 2 item 1; a code block is
matched on its language tag, a section on its title). -/
def textOfElem : MdElem → String
  | .Section title _ => title
  | .Paragraph text => text
  | .ListBlock _ _ => ""
  | .ListItem _ _ text _ => text
  | .Link _ text _ => text
  | .BlockQuote children => textOfList children
  | .CodeBlock language _ => language
  | .FrontMatter text => text
  | .Html text => text
  | .Table text => text

/-- Concatenated text of a node list (for block-quote content). -/
def textOfList : List MdElem → String
  | [] => ""
  | e :: rest => textOfElem e ++ textOfList rest

end

/-- The ordered children of a node, for the depth-first traversal. -/
def childrenOf : MdElem → List MdElem
  | .Section _ children => children
  | .Paragraph _ => []
  | .ListBlock _ items => items
  | .ListItem _ _ _ children => children
  | .Link _ _ _ => []
  | .BlockQuote children => children
  | .CodeBlock _ _ => []
  | .FrontMatter _ => []
  | .Html _ => []
  | .Table _ => []

/-- Modelled from the spec: whether a matcher accepts a node's text;
a literal matcher is case-insensitive substring containment
(spec section 4.2 step 3). -/
def matcherAccepts (m : Option TextMatcher) (text : String) : Bool :=
  match m with
  | none => true
  | some (.Literal s) => containsStr (strToLower text) (strToLower s)

/-- Modelled from the spec: whether a task-state qualifier accepts a list
item's checkbox state (spec section 3). -/
def taskAccepts (task : Option TaskState) (checked : Option Bool) : Bool :=
  match task with
  | none => true
  | some .checked => checked == some true
  | some .unchecked => checked == some false
  | some .either => checked != none

/-- Modelled from the spec: whether a node is a selected candidate for a
selector spec: its kind tag matches the spec's variant and its text
satisfies the matcher (spec section 4.2 steps 2-3). -/
def nodeMatches (s : SelectorSpec) (e : MdElem) : Bool :=
  match s, e with
  | .Section m, .Section title _ => matcherAccepts m title
  | .ListItem ord task m, .ListItem ord2 checked text _ =>
      ord == ord2 && taskAccepts task checked && matcherAccepts m text
  | .Link img m, .Link img2 text _ => img == img2 && matcherAccepts m text
  | .BlockQuote m, .BlockQuote children => matcherAccepts m (textOfList children)
  | .CodeBlock m, .CodeBlock language _ => matcherAccepts m language
  | .FrontMatter m, .FrontMatter text => matcherAccepts m text
  | .Html m, .Html text => matcherAccepts m text
  | .Paragraph m, .Paragraph text => matcherAccepts m text
  | .Table m, .Table text => matcherAccepts m text
  | _, _ => false

/-- The node itself when it is selected by the spec, else nothing
(spec section 4.2: self-match where the selector kind allows it). -/
def selfPart (s : SelectorSpec) (e : MdElem) : List MdElem :=
  if nodeMatches s e then [e] else []

mutual

/-- Modelled from the spec: depth-first, document-order traversal of a
node's subtree (the node itself included), collecting the nodes selected
by the spec (spec section 4.2 steps 1-3). -/
def collectElem (s : SelectorSpec) : MdElem → List MdElem
  | .Section t cs => selfPart s (.Section t cs) ++ collectChildren s cs
  | .Paragraph t => selfPart s (.Paragraph t)
  | .ListBlock o items => selfPart s (.ListBlock o items) ++ collectChildren s items
  | .ListItem o k t cs => selfPart s (.ListItem o k t cs) ++ collectChildren s cs
  | .Link i t u => selfPart s (.Link i t u)
  | .BlockQuote cs => selfPart s (.BlockQuote cs) ++ collectChildren s cs
  | .CodeBlock l c => selfPart s (.CodeBlock l c)
  | .FrontMatter t => selfPart s (.FrontMatter t)
  | .Html t => selfPart s (.Html t)
  | .Table t => selfPart s (.Table t)

/-- Depth-first collection over a node list, in document order. -/
def collectChildren (s : SelectorSpec) : List MdElem → List MdElem
  | [] => []
  | e :: rest => collectElem s e ++ collectChildren s rest

end

/-- Membership by `mdBeq`. -/
def memBy (e : MdElem) : List MdElem → Bool
  | [] => false
  | x :: rest => mdBeq e x || memBy e rest

/-- Deduplication keeping the first occurrence, preserving document order
(spec section 4.2 step 4). -/
def dedupAux (seen : List MdElem) : List MdElem → List MdElem
  | [] => []
  | e :: rest => if memBy e seen then dedupAux seen rest else e :: dedupAux (e :: seen) rest

/-- Deduplicates a node list by node identity, keeping first occurrences. -/
def dedupNodes (l : List MdElem) : List MdElem := dedupAux [] l

/-- Modelled from the spec: one chain step: the deduplicated union, in
document order, of the nodes selected from every working-set subtree
(spec section 4.2 step 4). -/
def selectStep (working : List MdElem) (s : SelectorSpec) : List MdElem :=
  dedupNodes (collectChildren s working)

/-- Modelled from the spec: `find_nodes`, folding the chain left-to-right
over the document roots (spec section 4.2); the selection context and the
reserved `MatchError` are not modelled, since matching itself never fails
and no claim constrains the context. -/
def find_nodes (chain : List SelectorSpec) (roots : List MdElem) : List MdElem :=
  chain.foldl selectStep roots

/-! ## REPL layer

Embedded from src/repl/commands.rs, src/repl/engine.rs and
src/repl/input.rs. Output written through `writeln!` is modelled as a
list of lines; the writes cannot fail, so `io::Result<bool>` is modelled
as the contained `bool`. -/

/-- Modelled from the spec: the output format choice of the run options
(`.format md|json|plain`, spec section 6); the `run` module is not among
the provided sources. -/
inductive OutputFormat where
  | Markdown
  | Json
  | Plain
  deriving DecidableEq, Repr

/-- Debug rendering of an `OutputFormat` (Rust `{:?}`). -/
def OutputFormat.debugStr : OutputFormat → String
  | .Markdown => "Markdown"
  | .Json => "Json"
  | .Plain => "Plain"

/-- Built-in REPL commands (src/repl/commands.rs `ReplCommand`). -/
inductive ReplCommand where
  | Query (q : String)
  | Load (path : String)
  | Reload
  | Format (f : OutputFormat)
  | Set (name : String) (value : String)
  | Get (name : String)
  | Variables
  | Help
  | Info
  | Clear
  | Exit
  | Unknown (cmd : String)
  deriving DecidableEq, Repr

/-- Parses a command string into a ReplCommand
(src/repl/commands.rs `ReplCommand::parse`, lines 49-111). -/
def ReplCommand.parse (input0 : String) : ReplCommand :=
  let input := strTrim input0
  if strIsEmpty input then .Unknown input
  else if startsWithStr input "." then
    let stripped := strDrop input 1
    let parts := splitWhitespaceStr stripped
    match parts with
    | [] => .Unknown input
    | p0 :: rest =>
      if p0 = "load" then
        match rest with
        | [a] => .Load a
        | _ => .Unknown input
      else if p0 = "reload" then .Reload
      else if p0 = "format" then
        match rest with
        | [a] =>
          if a = "md" ∨ a = "markdown" then .Format .Markdown
          else if a = "json" then .Format .Json
          else if a = "plain" then .Format .Plain
          else .Unknown input
        | _ => .Unknown input
      else if p0 = "set" then
        match rest with
        | name :: v0 :: vrest => .Set name (joinSep " " (v0 :: vrest))
        | _ => .Unknown input
      else if p0 = "get" then
        match rest with
        | [a] => .Get a
        | _ => .Unknown input
      else if p0 = "vars" ∨ p0 = "variables" then .Variables
      else if p0 = "help" then .Help
      else if p0 = "info" then .Info
      else if p0 = "clear" then .Clear
      else if p0 = "exit" ∨ p0 = "quit" then .Exit
      else .Unknown input
  else .Query input

/-- The REPL's vars map; a Rust `HashMap<String, String>` modelled as
an association list whose observable behavior (insert replaces the value
stored under an equal key, get looks the key up) matches the HashMap's. -/
abbrev VarMap := List (String × String)

/-- `HashMap::insert`: stores `v` under `k`, replacing any value under an
equal key. -/
def insertVar : VarMap → String → String → VarMap
  | [], k, v => [(k, v)]
  | (k2, v2) :: rest, k, v =>
    if k2 = k then (k, v) :: rest else (k2, v2) :: insertVar rest k v

/-- `HashMap::get`: the value stored under `k`, if any. -/
def lookupVar : VarMap → String → Option String
  | [], _ => none
  | (k2, v) :: rest, k => if k2 = k then some v else lookupVar rest k

/-- Outcome of executing a REPL command: the returned `bool`, the updated
vars map, and the lines written to the output. -/
structure ExecOutcome where
  flag : Bool
  vars : VarMap
  output : List String
  deriving Repr

/-- Executes a selector query (src/repl/commands.rs `execute_query`,
lines 191-233): every path returns `Ok(false)`. -/
def execute_query (selector_str : String) (document : Option MdDoc) : Bool × List String :=
  match document with
  | none => (false, ["Error: No document loaded. Use .load <file> first."])
  | some doc =>
    match Selector.try_parse selector_str with
    | .error e => (false, ["Error parsing selector: " ++ e.display])
    | .ok selector =>
      let pipeline_nodes := find_nodes selector doc.roots
      if pipeline_nodes.isEmpty then (false, ["No elements matched the selector"])
      else
        (false, ["Found " ++ natStr pipeline_nodes.length ++ " matching elements",
                 "Output formatting not yet implemented in REPL mode"])

/-- Lines printed by `show_help` (src/repl/commands.rs lines 236-259). -/
def helpLines : List String :=
  ["mdq REPL - Interactive Markdown Query Tool",
   "",
   "Available commands:",
   "  <selector>     Execute a selector query",
   "  .load <file>   Load a document from file",
   "  .reload        Reload the current document",
   "  .format <fmt>  Change output format (md|json|plain)",
   "  .set <n> <v>   Set a variable",
   "  .get <n>       Get a variable value",
   "  .vars          List all vars",
   "  .info          Show document information",
   "  .clear         Clear current document",
   "  .help          Show this help",
   "  .exit          Exit REPL",
   "",
   "Selector examples:",
   "  # Section      - Select sections with title containing \x27Section\x27",
   "  - List item    - Select list items containing \x27List item\x27",
   "  [text](url)    - Select links with display text \x27text\x27",
   "  > Quote        - Select blockquotes containing \x27Quote\x27",
   "  ```rust        - Select code blocks with language \x27rust\x27"]

/-- Executes a REPL command (src/repl/commands.rs `execute_command`,
lines 115-188). -/
def execute_command (command : ReplCommand) (document : Option MdDoc)
    (vars : VarMap) : ExecOutcome :=
  match command with
  | .Query selector_str =>
    let (b, out) := execute_query selector_str document
    ⟨b, vars, out⟩
  | .Load path => ⟨true, vars, ["Loading document from: " ++ path]⟩
  | .Reload => ⟨true, vars, ["Reloading document..."]⟩
  | .Format f => ⟨false, vars, ["Setting output format to: " ++ f.debugStr]⟩
  | .Set name value =>
    ⟨false, insertVar vars name value,
     ["Set variable \x27" ++ name ++ "\x27 = \x27" ++ value ++ "\x27"]⟩
  | .Get name =>
    ⟨false, vars,
     [match lookupVar vars name with
      | some value => name ++ " = " ++ value
      | none => "Variable \x27" ++ name ++ "\x27 not found"]⟩
  | .Variables =>
    ⟨false, vars,
     if vars.isEmpty then ["No vars set"]
     else "Variables:" :: vars.map (fun p => "  " ++ p.1 ++ " = " ++ p.2)⟩
  | .Help => ⟨false, vars, helpLines⟩
  | .Info =>
    ⟨false, vars,
     [match document with
      | some doc => "Document loaded with " ++ natStr doc.roots.length ++ " root elements"
      | none => "No document loaded"]⟩
  | .Clear => ⟨false, vars, ["Document cleared"]⟩
  | .Exit => ⟨false, vars, ["Exiting REPL..."]⟩
  | .Unknown cmd =>
    ⟨false, vars, ["Unknown command: " ++ cmd, "Use .help for available commands"]⟩

/-- State of a REPL session as used by the engine loop: the loaded
document and the current output format (src/repl/state.rs `ReplState`,
restricted to the fields the loop reads or writes). -/
structure ReplState where
  document : Option MdDoc
  current_format : OutputFormat

/-- Creates a fresh REPL state: no document loaded
(src/repl/state.rs `ReplState::new`; the default output format of the
run options is Markdown, modelled from the spec since the `run` module is
not among the provided sources). -/
def ReplState.new : ReplState := ⟨none, .Markdown⟩

/-- Outcome of the engine dispatching one command: the `should_continue`
flag read by the loop, the updated state and vars, and the output. -/
structure EngineOutcome where
  should_continue : Bool
  state : ReplState
  vars : VarMap
  output : List String

/-- Executes a REPL command at the engine level
(src/repl/engine.rs `ReplEngine::execute_command`, lines 60-164).
The `Load` and `Reload` branches drive the session's file access, which is
not available to the model (the session's filesystem reads live in
src/repl/session.rs and the host OS); they are modelled as failing reads,
and return `Ok(true)` exactly as every path of those branches does in the
source. -/
def ReplEngine.executeCommand (command : ReplCommand) (state : ReplState)
    (vars : VarMap) : EngineOutcome :=
  match command with
  | .Query q =>
    let r := execute_command (.Query q) state.document vars
    ⟨r.flag, state, r.vars, r.output⟩
  | .Load path => ⟨true, state, vars, ["Error loading document: " ++ path]⟩
  | .Reload => ⟨true, state, vars, ["Error reloading document: no document"]⟩
  | .Format f =>
    ⟨true, { state with current_format := f }, vars,
     ["Output format set to: " ++ f.debugStr]⟩
  | .Clear => ⟨true, { state with document := none }, vars, ["Document cleared"]⟩
  | .Exit => ⟨false, state, vars, []⟩
  | other =>
    let r := execute_command other state.document vars
    ⟨r.flag, state, r.vars, r.output⟩

/-- The main REPL loop from its current state (src/repl/engine.rs
`ReplEngine::run`, lines 27-57): reads a line, parses and executes the
command, and loops while `should_continue` holds; reaching the end of the
input plays the role of EOF. Every exit from the loop prints "Goodbye!". -/
def ReplEngine.runFrom (state : ReplState) (vars : VarMap) :
    List String → List String
  | [] => ["Goodbye!"]
  | input :: rest =>
    let command := ReplCommand.parse input
    let r := ReplEngine.executeCommand command state vars
    if r.should_continue then r.output ++ ReplEngine.runFrom r.state r.vars rest
    else r.output ++ ["Goodbye!"]

/-- Lines printed by `show_welcome` (src/repl/engine.rs lines 183-190). -/
def welcomeLines : List String :=
  ["mdq REPL - Interactive Markdown Query Tool",
   "Type \x27.help\x27 for available commands, or enter a selector query",
   "Press Ctrl+D or type \x27.exit\x27 to quit",
   ""]

/-- Runs the REPL over a list of input lines (src/repl/engine.rs
`ReplEngine::run`): welcome message, then the loop from a fresh state with
an empty vars map. -/
def ReplEngine.run (inputs : List String) : List String :=
  welcomeLines ++ ReplEngine.runFrom ReplState.new [] inputs

/-- Manages REPL input history (src/repl/input.rs `ReplInput`; the Rust
`VecDeque` is modelled as a list with its front at the head). -/
structure ReplInput where
  history : List String
  max_history : Nat
  history_pos : Option Nat

/-- Creates a new REPL input handler (src/repl/input.rs `ReplInput::new`). -/
def ReplInput.new (max_history : Nat) : ReplInput := ⟨[], max_history, none⟩

/-- Adds a command to history (src/repl/input.rs
`ReplInput::add_to_history`, lines 55-70): empty commands and commands
equal to the most recent entry are not appended; past the size limit the
oldest entry is dropped. -/
def ReplInput.add_to_history (r : ReplInput) (command : String) : ReplInput :=
  if strIsEmpty command || (r.history.getLast? == some command) then r
  else
    let h := r.history ++ [command]
    let h := if r.max_history < h.length then h.drop 1 else h
    { r with history := h, history_pos := none }

/-! ## Claims about the diagnostics engine -/

/-- C1: for every grammar-level parse error whose positives set is empty,
`to_string_with_suggestions` returns the baseline rendering followed by the
fixed suggestions catalog, so its output contains "Suggestions:" and all
ten catalog lines, and the appended text is the same constant
(`suggestionsCatalog`) for every such error and query string. -/
theorem c1_empty_positives_appends_catalog
    (e : QueryError) (negatives : List Rule) (query_text : String)
    (h : e.variant = ErrorVariant.ParsingError [] negatives) :
    ParseError.to_string_with_suggestions ⟨.Pest e⟩ query_text
      = queryErrorDisplay e ++ suggestionsCatalog
    ∧ containsStr (ParseError.to_string_with_suggestions ⟨.Pest e⟩ query_text)
        "Suggestions:" = true
    ∧ ∀ l ∈ catalogClaimLines,
        containsStr (ParseError.to_string_with_suggestions ⟨.Pest e⟩ query_text) l = true := by
  have heq : ParseError.to_string_with_suggestions ⟨.Pest e⟩ query_text
      = queryErrorDisplay e ++ suggestionsCatalog := by
    simp [ParseError.to_string_with_suggestions, extract_failed_rule_from_pest_error, h]
  refine ⟨heq, ?_, ?_⟩
  · rw [heq]
    exact containsStr_append_left _ _ _ (by decide)
  · intro l hl
    rw [heq]
    apply containsStr_append_left
    fin_cases hl <;> decide

/-- Concrete error with empty positives, from the spec's canonical bad query. -/
def c1ExampleError : QueryError :=
  ⟨.ParsingError [] [], 1, 1, "$ ! invalid query string ! $"⟩

/-- Witness for C1 at a concrete grammar error with empty positives. -/
theorem c1_empty_positives_appends_catalog_witness :
    c1ExampleError.variant = ErrorVariant.ParsingError [] []
    ∧ (ParseError.to_string_with_suggestions ⟨.Pest c1ExampleError⟩ "$ ! invalid query string ! $"
        = queryErrorDisplay c1ExampleError ++ suggestionsCatalog
      ∧ containsStr (ParseError.to_string_with_suggestions ⟨.Pest c1ExampleError⟩
          "$ ! invalid query string ! $") "Suggestions:" = true
      ∧ ∀ l ∈ catalogClaimLines,
          containsStr (ParseError.to_string_with_suggestions ⟨.Pest c1ExampleError⟩
            "$ ! invalid query string ! $") l = true) :=
  ⟨rfl, c1_empty_positives_appends_catalog c1ExampleError [] "$ ! invalid query string ! $" rfl⟩

/-- C2 counterexample: a semantic parse error whose span does re-resolve
against the query text does not get the suggestions catalog appended: the
output contains no "Suggestions:" substring and differs from the baseline
rendering followed by the catalog. -/
theorem c2_semantic_error_catalog_counterexample :
    spanResolves "ab" ⟨0, 1⟩ = true
    ∧ containsStr (ParseError.to_string_with_suggestions ⟨.Other ⟨0, 1⟩ "boom"⟩ "ab")
        "Suggestions:" = false
    ∧ ParseError.to_string_with_suggestions ⟨.Other ⟨0, 1⟩ "boom"⟩ "ab"
        ≠ ParseError.to_string ⟨.Other ⟨0, 1⟩ "boom"⟩ "ab" ++ suggestionsCatalog :=
  ⟨rfl, by decide, by decide⟩

/-- C2 as amended: for every semantic parse error whose detached span does
re-resolve against the supplied query text, `to_string_with_suggestions`
appends the fixed marker "\n\n[No rule extracted]" to the baseline
rendering, not the suggestions catalog. -/
theorem c2_semantic_error_appends_no_rule_marker
    (span : DetachedSpan) (message query_text : String)
    (h : spanResolves query_text span = true) :
    ParseError.to_string_with_suggestions ⟨.Other span message⟩ query_text
      = ParseError.to_string ⟨.Other span message⟩ query_text ++ "\n\n[No rule extracted]" := by
  simp [ParseError.to_string_with_suggestions, ParseError.to_string, h,
    extract_failed_rule_from_pest_error, new_from_span]

/-- Witness for the amended C2 at a concrete resolvable span. -/
theorem c2_semantic_error_appends_no_rule_marker_witness :
    spanResolves "ab" ⟨0, 1⟩ = true
    ∧ ParseError.to_string_with_suggestions ⟨.Other ⟨0, 1⟩ "boom"⟩ "ab"
        = ParseError.to_string ⟨.Other ⟨0, 1⟩ "boom"⟩ "ab" ++ "\n\n[No rule extracted]" :=
  ⟨rfl, c2_semantic_error_appends_no_rule_marker ⟨0, 1⟩ "boom" "ab" rfl⟩

/-- Concrete grammar error with non-empty positives whose offending source
line itself contains "Suggestions:". -/
def c4ExampleError : QueryError :=
  ⟨.ParsingError [Rule.top] [], 1, 1, "Suggestions: x"⟩

/-- C4 counterexample: a grammar-level parse error with non-empty
positives whose query line contains "Suggestions:" yields a
`to_string_with_suggestions` output that does contain the substring
"Suggestions:", since the baseline caret diagram echoes the query line. -/
theorem c4_expected_path_counterexample :
    (∃ p ps negs, c4ExampleError.variant = ErrorVariant.ParsingError (p :: ps) negs)
    ∧ containsStr
        (ParseError.to_string_with_suggestions ⟨.Pest c4ExampleError⟩ "Suggestions: x")
        "Suggestions:" = true :=
  ⟨⟨Rule.top, [], [], rfl⟩, by decide⟩

/-- C4 as amended: for every grammar-level parse error with non-empty
positives, `to_string_with_suggestions` appends exactly
"\n\nExpected: \`<description of the first positive rule>\`" to the
baseline rendering, and that appended hint never contains "Suggestions:"
(so the catalog is not appended; "Suggestions:" can occur in the output
only by way of the baseline rendering echoing the query text). -/
theorem c4_expected_path_appends_rule_hint
    (e : QueryError) (p : Rule) (ps negatives : List Rule) (query_text : String)
    (h : e.variant = ErrorVariant.ParsingError (p :: ps) negatives) :
    ParseError.to_string_with_suggestions ⟨.Pest e⟩ query_text
      = queryErrorDisplay e ++ "\n\nExpected: `" ++ rule_to_string p ++ "`"
    ∧ containsStr ("\n\nExpected: `" ++ rule_to_string p ++ "`") "Suggestions:" = false := by
  constructor
  · simp [ParseError.to_string_with_suggestions, extract_failed_rule_from_pest_error, h]
  · cases p <;> decide

/-- Witness for the amended C4 at a concrete one-positive grammar error. -/
theorem c4_expected_path_appends_rule_hint_witness :
    c4ExampleError.variant = ErrorVariant.ParsingError [Rule.top] []
    ∧ (ParseError.to_string_with_suggestions ⟨.Pest c4ExampleError⟩ "Suggestions: x"
        = queryErrorDisplay c4ExampleError ++ "\n\nExpected: `" ++ rule_to_string Rule.top ++ "`"
      ∧ containsStr ("\n\nExpected: `" ++ rule_to_string Rule.top ++ "`") "Suggestions:" = false) :=
  ⟨rfl, c4_expected_path_appends_rule_hint c4ExampleError Rule.top [] [] "Suggestions: x" rfl⟩

/-- C6: every rule identifier of the grammar has a non-empty description
in `rule_to_string`; in particular `top` maps to "valid query",
`selector_chain` to "one or more selectors", the section-start rules to
"#", and the list-start rules to "- or 1.". -/
theorem c6_rule_descriptions_complete :
    (∀ r : Rule, rule_to_string r ≠ "")
    ∧ rule_to_string Rule.top = "valid query"
    ∧ rule_to_string Rule.selector_chain = "one or more selectors"
    ∧ rule_to_string Rule.select_section = "#"
    ∧ rule_to_string Rule.section_start = "#"
    ∧ rule_to_string Rule.select_list_item = "- or 1."
    ∧ rule_to_string Rule.list_start = "- or 1." := by
  refine ⟨fun r => ?_, rfl, rfl, rfl, rfl, rfl, rfl⟩
  cases r <;> decide

/-- C7: a semantic parse error whose span does not re-resolve against the
supplied query text degrades, in both `to_string` and
`to_string_with_suggestions`, to exactly the raw stored message. -/
theorem c7_unresolvable_span_raw_message
    (span : DetachedSpan) (message query_text : String)
    (h : spanResolves query_text span = false) :
    ParseError.to_string ⟨.Other span message⟩ query_text = message
    ∧ ParseError.to_string_with_suggestions ⟨.Other span message⟩ query_text = message := by
  constructor
  · simp [ParseError.to_string, h]
  · simp [ParseError.to_string_with_suggestions, h]

/-- Witness for C7 at a concrete out-of-range span. -/
theorem c7_unresolvable_span_raw_message_witness :
    spanResolves "ab" ⟨5, 2⟩ = false
    ∧ (ParseError.to_string ⟨.Other ⟨5, 2⟩ "boom"⟩ "ab" = "boom"
      ∧ ParseError.to_string_with_suggestions ⟨.Other ⟨5, 2⟩ "boom"⟩ "ab" = "boom") :=
  ⟨rfl, c7_unresolvable_span_raw_message ⟨5, 2⟩ "boom" "ab" rfl⟩

/-! ## Claims about matching and the REPL -/

/-- The spec's round-trip example document: two sections, "First section"
with list items "hello" and "world", "Second section" with list items
"foo" and "bar" (spec section 8; crate doc example in src/lib.rs). -/
def docTwoSections : MdDoc :=
  ⟨[.Section "First section"
      [.ListBlock false
        [.ListItem false none "hello" [], .ListItem false none "world" []]],
    .Section "Second section"
      [.ListBlock false
        [.ListItem false none "foo" [], .ListItem false none "bar" []]]]⟩

/-- C5: the query "# second | - *" parses into the two-selector chain
(case-insensitive literal section matcher "second", then every list item),
and `find_nodes` on the two-section example document returns exactly the
list items "foo" and "bar", in that order. -/
theorem c5_round_trip_example :
    Selector.try_parse "# second | - *"
      = .ok [.Section (some (.Literal "second")), .ListItem false none none]
    ∧ find_nodes [.Section (some (.Literal "second")), .ListItem false none none]
        docTwoSections.roots
      = [.ListItem false none "foo" [], .ListItem false none "bar" []] :=
  ⟨rfl, rfl⟩

/-- C3 (code bug): a REPL input line that is a selector query failing to
parse makes `ReplEngine::run` break out of its loop: its `execute_query`
returns `Ok(false)` on the parse-error path, and the run loop treats
`false` as should-not-continue, so an input following the failed query is
never processed (the run over both inputs equals the run over the failed
query alone) — the session terminates instead of continuing. -/
theorem c3_failed_query_breaks_repl_loop :
    (Selector.try_parse "$ ! invalid query string ! $").isOk = false
    ∧ (ReplEngine.executeCommand (ReplCommand.parse "$ ! invalid query string ! $")
        ⟨some docTwoSections, .Markdown⟩ []).should_continue = false
    ∧ ReplEngine.runFrom ⟨some docTwoSections, .Markdown⟩ []
        ["$ ! invalid query string ! $", ".help"]
      = ReplEngine.runFrom ⟨some docTwoSections, .Markdown⟩ []
        ["$ ! invalid query string ! $"] :=
  ⟨rfl, rfl, rfl⟩

/-- Non-empty strings have `strIsEmpty` false. -/
theorem strIsEmpty_eq_false_of_ne (s : String) (h : s ≠ "") : strIsEmpty s = false := by
  cases s with
  | mk d =>
    cases d with
    | nil => exact absurd rfl h
    | cons a as => rfl

/-- C8: every input line whose trimmed form is non-empty and does not
start with '.' parses to `ReplCommand.Query` carrying the trimmed line. -/
theorem c8_bare_line_is_query (input : String)
    (h1 : strTrim input ≠ "")
    (h2 : startsWithStr (strTrim input) "." = false) :
    ReplCommand.parse input = .Query (strTrim input) := by
  simp [ReplCommand.parse, strIsEmpty_eq_false_of_ne _ h1, h2]

/-- Witness for C8 at a concrete bare input line. -/
theorem c8_bare_line_is_query_witness :
    strTrim "  # sec  " ≠ ""
    ∧ startsWithStr (strTrim "  # sec  ") "." = false
    ∧ ReplCommand.parse "  # sec  " = .Query (strTrim "  # sec  ") :=
  ⟨by decide, rfl, c8_bare_line_is_query "  # sec  " (by decide) rfl⟩

/-- Inserting under a key stores exactly that value there. -/
theorem lookupVar_insertVar (m : VarMap) (k v : String) :
    lookupVar (insertVar m k v) k = some v := by
  induction m with
  | nil => simp [insertVar, lookupVar]
  | cons p rest ih =>
    obtain ⟨k2, v2⟩ := p
    by_cases h : k2 = k
    · simp [insertVar, lookupVar, h]
    · simp [insertVar, lookupVar, h, ih]

/-- C9: executing Set(name, value) stores exactly that value under that
name, a subsequent Get(name) against the updated map writes the single
line "name = value", and a Get for a name with no stored value writes
"Variable '<name>' not found". -/
theorem c9_set_get_round_trip (name value : String) (m : VarMap) (document : Option MdDoc) :
    lookupVar (execute_command (.Set name value) document m).vars name = some value
    ∧ (execute_command (.Get name) document
        (execute_command (.Set name value) document m).vars).output
      = [name ++ " = " ++ value]
    ∧ ∀ (name2 : String) (m2 : VarMap), lookupVar m2 name2 = none →
        (execute_command (.Get name2) document m2).output
          = ["Variable \x27" ++ name2 ++ "\x27 not found"] := by
  refine ⟨?_, ?_, ?_⟩
  · simp [execute_command, lookupVar_insertVar]
  · simp [execute_command, lookupVar_insertVar]
  · intro name2 m2 h
    simp [execute_command, h]

/-- Witness for C9 at concrete names, values and maps. -/
theorem c9_set_get_round_trip_witness :
    lookupVar (execute_command (.Set "x" "1") none []).vars "x" = some "1"
    ∧ (execute_command (.Get "x") none (execute_command (.Set "x" "1") none []).vars).output
      = ["x = 1"]
    ∧ (execute_command (.Get "y") none []).output = ["Variable \x27y\x27 not found"] := by
  obtain ⟨h1, h2, h3⟩ := c9_set_get_round_trip "x" "1" [] none
  exact ⟨h1, h2, h3 "y" [] rfl⟩

/-- The three-part history invariant of C10: bounded length, no empty
entries, no two consecutive equal entries. -/
def historyInv (max : Nat) (h : List String) : Prop :=
  h.length ≤ max ∧ (∀ s ∈ h, s ≠ "") ∧ h.Chain' (· ≠ ·)

/-- `add_to_history` never changes the capacity field. -/
theorem add_to_history_max (r : ReplInput) (c : String) :
    (r.add_to_history c).max_history = r.max_history := by
  unfold ReplInput.add_to_history
  split <;> simp

/-- One `add_to_history` step preserves the history invariant. -/
theorem add_to_history_inv (r : ReplInput) (c : String)
    (h : historyInv r.max_history r.history) :
    historyInv r.max_history (r.add_to_history c).history := by
  obtain ⟨hlen, hmem, hch⟩ := h
  unfold ReplInput.add_to_history
  split
  case isTrue => exact ⟨hlen, hmem, hch⟩
  case isFalse hcond =>
    simp only [Bool.or_eq_true, not_or] at hcond
    obtain ⟨hc1, hc2⟩ := hcond
    have hcne : c ≠ "" := by
      intro he
      exact hc1 (by rw [he]; rfl)
    have hlast : r.history.getLast? ≠ some c := by
      intro hcontra
      exact hc2 (by rw [hcontra]; exact beq_self_eq_true (some c))
    have hchain2 : (r.history ++ [c]).Chain' (· ≠ ·) := by
      rw [List.chain'_append]
      refine ⟨hch, List.chain'_singleton c, ?_⟩
      intro x hx y hy
      simp only [List.head?_cons, Option.mem_def, Option.some.injEq] at hy
      subst hy
      intro he
      subst he
      exact hlast hx
    have hmem2 : ∀ s ∈ r.history ++ [c], s ≠ "" := by
      intro s hs
      rcases List.mem_append.mp hs with h' | h'
      · exact hmem s h'
      · simp only [List.mem_singleton] at h'
        subst h'
        exact hcne
    simp only
    split
    case isTrue hlt =>
      refine ⟨?_, ?_, ?_⟩
      · simp only [List.length_drop, List.length_append, List.length_cons,
          List.length_nil] at hlt ⊢
        omega
      · intro s hs
        exact hmem2 s (List.drop_subset 1 _ hs)
      · rw [List.drop_one]
        exact hchain2.tail
    case isFalse hge =>
      refine ⟨?_, hmem2, hchain2⟩
      simp only [List.length_append, List.length_cons, List.length_nil] at hge ⊢
      omega

/-- The history invariant holds along any fold of `add_to_history`, and
the capacity field never changes. -/
theorem repl_foldl_inv (cmds : List String) :
    ∀ (r : ReplInput), historyInv r.max_history r.history →
      historyInv r.max_history (cmds.foldl ReplInput.add_to_history r).history
      ∧ (cmds.foldl ReplInput.add_to_history r).max_history = r.max_history := by
  induction cmds with
  | nil => exact fun r h => ⟨h, rfl⟩
  | cons c cs ih =>
    intro r h
    have hm := add_to_history_max r c
    have h1 : historyInv (r.add_to_history c).max_history (r.add_to_history c).history := by
      rw [hm]
      exact add_to_history_inv r c h
    obtain ⟨g1, g2⟩ := ih (r.add_to_history c) h1
    rw [hm] at g1 g2
    exact ⟨g1, g2⟩

/-- C10: for a `ReplInput` created with capacity `max_history`, after any
sequence of `add_to_history` calls the stored history has at most
`max_history` entries, contains no empty string, and has no two
consecutive equal entries. -/
theorem c10_history_invariant (max_history : Nat) (cmds : List String) :
    (cmds.foldl ReplInput.add_to_history (ReplInput.new max_history)).history.length
      ≤ max_history
    ∧ (∀ s ∈ (cmds.foldl ReplInput.add_to_history (ReplInput.new max_history)).history,
        s ≠ "")
    ∧ (cmds.foldl ReplInput.add_to_history (ReplInput.new max_history)).history.Chain'
        (· ≠ ·) := by
  have h0 : historyInv (ReplInput.new max_history).max_history
      (ReplInput.new max_history).history := by
    refine ⟨by simp [ReplInput.new], by simp [ReplInput.new], by simp [ReplInput.new]⟩
  obtain ⟨⟨g1, g2, g3⟩, _⟩ := repl_foldl_inv cmds (ReplInput.new max_history) h0
  exact ⟨g1, g2, g3⟩
